import Mathlib

/-!
A shallow embedding of the Terdex planning core (`terdex/planner.py`,
`terdex/engine.py`, `terdex/providers.py`, `terdex/ollama_support.py`).

Python strings are modelled as `List Char` (`Str`), restricted to the ASCII
behaviour of `str.strip`, `str.lower`, `str.upper` and `str.splitlines`
(every string the program manipulates in the verified paths is ASCII).
JSON values are modelled by `JVal`; the standard-library `json.loads` is an
external dependency and is abstracted as a `Str → Option JVal` parameter
(`none` models `json.JSONDecodeError`).  Process-environment reads
(`detect_termux`, `os.getenv`) are injected as parameters, and the
injectable HTTP transport (`http_post`) is modelled as a function whose
invocations are returned as an explicit call log.
-/

set_option linter.unusedVariables false
set_option synthInstance.maxHeartbeats 400000

abbrev Str := List Char

/-- ASCII fragment of Python `str.isspace` / the `str.strip` character set. -/
def pyIsSpace (c : Char) : Bool :=
  c == ' ' || c == '\t' || c == '\n' || c == '\r' || c == '\x0b' || c == '\x0c'

/-- Python `str.strip()` (ASCII whitespace). -/
def pyStrip (s : Str) : Str :=
  ((s.dropWhile pyIsSpace).reverse.dropWhile pyIsSpace).reverse

/-- Python `str.lower()` (ASCII). -/
def pyLower (s : Str) : Str := s.map Char.toLower

/-- Python `str.split(sep)` for a one-character separator (`"".split(sep) == [""]`). -/
def pySplitChar (sep : Char) : Str → List Str
  | [] => [[]]
  | c :: rest =>
    let r := pySplitChar sep rest
    if c = sep then [] :: r
    else
      match r with
      | [] => [[c]]
      | h :: t => (c :: h) :: t

/-- `re.split` over a one-character-class pattern such as `[.!?]`. -/
def pySplitAnyChar (seps : List Char) : Str → List Str
  | [] => [[]]
  | c :: rest =>
    let r := pySplitAnyChar seps rest
    if c ∈ seps then [] :: r
    else
      match r with
      | [] => [[c]]
      | h :: t => (c :: h) :: t

/-- Python `str.replace(old, new)` for one-character arguments. -/
def pyReplaceChar (old new : Char) (s : Str) : Str :=
  s.map (fun c => if c = old then new else c)

/-- Python `str.startswith(pre)`. -/
def pyStartsWith (s pre : Str) : Bool := pre.isPrefixOf s

/-- Python `"\n".join(parts)`. -/
def joinNewline : List Str → Str
  | [] => []
  | [x] => x
  | x :: y :: rest => x ++ '\n' :: joinNewline (y :: rest)

/-- Python list slice `l[:m]` for an `int` bound `m` (negative bounds count
from the end, clamped at zero). -/
def pySliceUpTo (m : Int) (l : List α) : List α :=
  if 0 ≤ m then l.take m.toNat
  else l.take ((l.length : Int) + m).toNat

/-- Python truthiness of a `str`. -/
def truthyStr (s : Str) : Bool := !s.isEmpty

/-- Python truthiness of an `Optional[str]`. -/
def truthyOptStr : Option Str → Bool
  | some s => truthyStr s
  | none => false

/-- Python `a or b` where `a : Optional[str]` and `b : str`. -/
def pyOrStrD : Option Str → Str → Str
  | some s, d => if truthyStr s then s else d
  | none, d => d

/-- JSON values as produced by `json.loads` (a JSON `null` retrieved from a
dict is the Python value `None`, which `JVal.null` models). -/
inductive JVal where
  | null
  | bool (b : Bool)
  | num (n : Int)
  | str (s : Str)
  | arr (items : List JVal)
  | obj (entries : List (Str × JVal))

/-- Python `dict.get(key)` over an association-list model of a dict. -/
def jLookup : List (Str × JVal) → Str → Option JVal
  | [], _ => none
  | (k, v) :: rest, key => if k = key then some v else jLookup rest key

/-- Python truthiness of a JSON value. -/
def truthyJVal : JVal → Bool
  | .null => false
  | .bool b => b
  | .num n => n != 0
  | .str s => !s.isEmpty
  | .arr items => !items.isEmpty
  | .obj entries => !entries.isEmpty

/-- Python truthiness of `dict.get`'s result (`none` models a missing key,
returned as Python `None`). -/
def truthyOptJVal : Option JVal → Bool
  | some v => truthyJVal v
  | none => false

/-- Python `a or b` over values retrieved by `dict.get`. -/
def pyOr (a b : Option JVal) : Option JVal := if truthyOptJVal a then a else b

/-! ### Dictionary keys and fixed strings used by the planner -/

def kTitle : Str := "title".data
def kSummary : Str := "summary".data
def kAction : Str := "action".data
def kCommand : Str := "command".data
def kNotes : Str := "notes".data
def kNote : Str := "note".data
def kDetails : Str := "details".data
def kTaskSummary : Str := "task_summary".data
def kSteps : Str := "steps".data
def kEnvironmentKey : Str := "environment".data
def envTag : Str := "environment:".data
def envTagSpace : Str := "Environment: ".data
def kHeuristic : Str := "heuristic".data
def kOllama : Str := "ollama".data

/-! ### `planner.PlanStep` and `planner.Plan` -/

/-- `planner.PlanStep`: title, optional command, optional notes. -/
structure PlanStep where
  title : Str
  command : Option Str := none
  notes : Option Str := none
deriving DecidableEq

/-- `PlanStep.to_dict` (planner.py lines 27-35): `command` and `notes` keys
are present only when the fields are truthy (non-`None`, non-empty). -/
def PlanStep.toDict (s : PlanStep) : JVal :=
  .obj ([(kTitle, .str s.title)]
    ++ (if truthyOptStr s.command then [(kCommand, .str (s.command.getD []))] else [])
    ++ (if truthyOptStr s.notes then [(kNotes, .str (s.notes.getD []))] else []))

/-- `planner.Plan`: summary, ordered steps, environment note. -/
structure Plan where
  summary : Str
  steps : List PlanStep
  environment_note : Str
deriving DecidableEq

/-- `Plan.truncated` (planner.py lines 60-65): a copy limited to `max_steps`
entries; `self.steps[:max_steps]` follows Python slice semantics. -/
def Plan.truncated (p : Plan) (maxSteps : Option Int) : Plan :=
  match maxSteps with
  | none => ⟨p.summary, p.steps, p.environment_note⟩
  | some m =>
    if (p.steps.length : Int) ≤ m then ⟨p.summary, p.steps, p.environment_note⟩
    else ⟨p.summary, pySliceUpTo m p.steps, p.environment_note⟩

/-- `Plan.to_dict` (planner.py lines 72-79). -/
def Plan.toDict (p : Plan) : JVal :=
  .obj [(kSummary, .str p.summary),
        (kSteps, .arr (p.steps.map PlanStep.toDict)),
        (kEnvironmentKey, .str p.environment_note)]

/-! ### `engine.TerdexEngine` -/

/-- One chat message (`{role, content}`). -/
structure ChatMessage where
  role : Str
  content : Str
deriving DecidableEq

def kRole : Str := "role".data
def kContent : Str := "content".data
def kSystem : Str := "system".data
def kUser : Str := "user".data
def kAssistant : Str := "assistant".data

/-- `engine.TERDEX_SYSTEM_PROMPT` (after the source's `.strip()`). -/
def terdexSystemPrompt : Str :=
  ("You are Terdex, a Termux-aware planning assistant. You help developers working on\n"
    ++ "Android devices craft concise, actionable plans that can be executed inside the\n"
    ++ "Termux shell. Always consider:\n"
    ++ "- Package management relies on `pkg`/`apt` rather than `sudo` or Homebrew.\n"
    ++ "- Devices often have limited RAM and CPU resources, so prefer lightweight tools.\n"
    ++ "- File paths should avoid hard-coded `/data/data` prefixes and assume a POSIX shell.\n"
    ++ "- Networking may be unreliable; cache downloads when possible.\n"
    ++ "\n"
    ++ "When asked for help you must respond with a single JSON object using the schema:\n"
    ++ "\x7b\n"
    ++ "  \"task_summary\": \"Short description of the task in 1 sentence\",\n"
    ++ "  \"steps\": [\n"
    ++ "    \x7b\n"
    ++ "      \"title\": \"High-level action title\",\n"
    ++ "      \"command\": \"Specific Termux-friendly shell command, if relevant\",\n"
    ++ "      \"notes\": \"Optional clarifications or cautions\"\n"
    ++ "    \x7d\n"
    ++ "  ],\n"
    ++ "  \"environment\": \"One sentence reminder about Termux constraints\"\n"
    ++ "\x7d\n"
    ++ "\n"
    ++ "If a shell command is not required for a step, use an empty string for the\n"
    ++ "\"command\" field. Keep responses focused and avoid markdown outside the JSON.").data

/-- Environment hint when `termux` is truthy (engine.py line 59). -/
def hintTermux : Str := "The user is running inside Termux on Android.".data

/-- Environment hint otherwise (engine.py line 61). -/
def hintGeneric : Str :=
  "The user may be on a standard Linux distribution but wants Termux-compatible steps.".data

def planDirective : Str :=
  "Plan the work before execution and output valid JSON only.".data

def cotDirective : Str :=
  "Think step-by-step to ensure the plan is safe, then provide only the JSON object in the final response.".data

def taskTag : Str := "Task: ".data

/-- Python `list.insert(i, x)`. -/
def pyListInsert (i : Nat) (x : α) (l : List α) : List α :=
  l.take i ++ x :: l.drop i

/-- The history merge inside `build_messages` (engine.py lines 51-56): each
well-formed `{role, content}` pair is kept, malformed entries are skipped. -/
def historyMessages (history : List (List (Str × JVal))) : List ChatMessage :=
  history.filterMap (fun message =>
    match jLookup message kRole, jLookup message kContent with
    | some (.str role), some (.str content) => some ⟨role, content⟩
    | _, _ => none)

/-- `TerdexEngine.build_messages` (engine.py lines 41-76).  `history = none`
models the Python default `None`; `if history:` also skips an empty list. -/
def buildMessages (enableChainOfThought : Bool) (description : Str)
    (termux : Option Bool) (history : Option (List (List (Str × JVal)))) :
    List ChatMessage :=
  let messages : List ChatMessage := [⟨kSystem, terdexSystemPrompt⟩]
  let messages := messages ++
    (match history with
     | some entries => if entries.isEmpty then [] else historyMessages entries
     | none => [])
  let environmentHint := if termux = some true then hintTermux else hintGeneric
  let userInstructions := [planDirective, environmentHint, taskTag ++ pyStrip description]
  let userInstructions :=
    if enableChainOfThought then pyListInsert 1 cotDirective userInstructions
    else userInstructions
  messages ++ [⟨kUser, joinNewline userInstructions⟩]

/-! ### `planner` helper functions -/

/-- `planner._capitalize` (planner.py lines 306-312): strip, then uppercase
the first character. -/
def capitalize (text : Str) : Str :=
  if text.isEmpty then []
  else
    let stripped := pyStrip text
    if stripped.isEmpty then []
    else
      match stripped with
      | [] => []
      | c :: rest => c.toUpper :: rest

/-- `planner._environment_message` (planner.py lines 240-250) with the
`detect_termux()` environment read injected as a boolean. -/
def environmentMessage (isTermux : Bool) : Str :=
  if isTermux then
    ("Environment: Detected Termux. Prefer `pkg` for package management and avoid sudo.").data
  else
    ("Environment: Non-Termux detected. If targeting Termux, ensure commands "
      ++ "are `pkg` compatible.").data

/-- `planner._derive_summary` (planner.py lines 253-259). -/
def deriveSummary (description : Str) : Str :=
  let parts := pySplitAnyChar ['.', '!', '?'] description
  match parts.find? (fun part => truthyStr (pyStrip part)) with
  | some part => capitalize (pyStrip part)
  | none => capitalize (pyStrip (description.take 120))

/-- `planner._clean_text` (planner.py lines 299-303), applied to a value
retrieved by `dict.get` (so `none` is Python `None`). -/
def cleanText : Option JVal → Option Str
  | some (.str value) =>
    let cleaned := pyStrip value
    if cleaned.isEmpty then none else some cleaned
  | _ => none

/-- `planner._normalize_environment_text` (planner.py lines 262-271). -/
def normalizeEnvironmentText : Option JVal → Str
  | some (.str value) =>
    let candidate := pyStrip value
    if candidate.isEmpty then []
    else if pyStartsWith (pyLower candidate) envTag then candidate
    else envTagSpace ++ candidate
  | _ => []

/-- `planner._parse_step_entry` (planner.py lines 274-296). -/
def parseStepEntry : JVal → Option PlanStep
  | .obj entry =>
    let titleField :=
      pyOr (jLookup entry kTitle) (pyOr (jLookup entry kSummary) (jLookup entry kAction))
    let commandField := jLookup entry kCommand
    let notesField :=
      pyOr (jLookup entry kNotes) (pyOr (jLookup entry kNote) (jLookup entry kDetails))
    let title := cleanText titleField
    let command := cleanText commandField
    let notes := cleanText notesField
    let title := if ¬ truthyOptStr title ∧ truthyOptStr command then command else title
    if truthyOptStr title then
      some ⟨capitalize (title.getD []), command, notes⟩
    else none
  | .str value =>
    match cleanText (some (.str value)) with
    | some cleaned => some ⟨capitalize cleaned, none, none⟩
    | none => none
  | _ => none

/-- The entry loop of `_parse_plan_json` (planner.py lines 211-215). -/
def parseStepEntries (entries : List JVal) : List PlanStep :=
  entries.filterMap parseStepEntry

/-- `planner._parse_plan_json` after `json.loads` (planner.py lines 201-220):
the part of the strict-JSON parse that works on the decoded payload. -/
def parsePlanPayload : JVal → Option Plan
  | .obj payload =>
    let summary :=
      match jLookup payload kTaskSummary with
      | some (.str s) => pyStrip s
      | _ => []
    let environmentText := normalizeEnvironmentText (jLookup payload kEnvironmentKey)
    let steps :=
      match jLookup payload kSteps with
      | some (.arr entries) => parseStepEntries entries
      | _ => []
    if steps.isEmpty && summary.isEmpty && environmentText.isEmpty then none
    else some ⟨summary, steps, environmentText⟩
  | _ => none

/-- `planner._parse_plan_json` (planner.py lines 195-220), with `json.loads`
abstracted as `jsonParse` (`none` models `JSONDecodeError`). -/
def parsePlanJson (jsonParse : Str → Option JVal) (rawPlan : Str) : Option Plan :=
  match jsonParse rawPlan with
  | some payload => parsePlanPayload payload
  | none => none

/-- `planner._fallback_steps` (planner.py lines 176-189). -/
def fallbackSteps (normalizedDescription : Str) : List PlanStep :=
  let sentences :=
    (pySplitChar '.' (pyReplaceChar '!' '.' (pyReplaceChar '?' '.' normalizedDescription))).filterMap
      (fun sentence =>
        let s := pyStrip sentence
        if s.isEmpty then none else some s)
  sentences.map (fun sentence => ⟨capitalize sentence, none, none⟩)

/-! ### Loose-line parsing (`planner._normalize_ollama_output`) -/

/-- The character class `[-*â€¢]` of `planner._LISTING_PREFIX` as the source
file stores it (a mojibake-encoded bullet: the three bytes of U+2022 read
back as individual characters). -/
def bulletChars : List Char := ['-', '*', 'â', '€', '¢']

def pyIsDigit (c : Char) : Bool := '0' ≤ c && c ≤ '9'

/-- First alternative of `_LISTING_PREFIX`: a bullet character then `\s*`. -/
def matchBulletMarker (s : Str) : Option Str :=
  match s with
  | c :: rest => if c ∈ bulletChars then some (rest.dropWhile pyIsSpace) else none
  | [] => none

/-- Second alternative of `_LISTING_PREFIX`: `\d+[).:-]\s*`. -/
def matchNumberMarker (s : Str) : Option Str :=
  let digits := s.takeWhile pyIsDigit
  let rest := s.dropWhile pyIsDigit
  if digits.isEmpty then none
  else
    match rest with
    | p :: r => if p ∈ [')', '.', ':', '-'] then some (r.dropWhile pyIsSpace) else none
    | [] => none

/-- Third alternative of `_LISTING_PREFIX`: `step\s+\d+[:.-]\s*`,
case-insensitive on the word `step`. -/
def matchStepMarker (s : Str) : Option Str :=
  match s with
  | a :: b :: c :: d :: rest =>
    if [a.toLower, b.toLower, c.toLower, d.toLower] = ['s', 't', 'e', 'p'] then
      let ws := rest.takeWhile pyIsSpace
      let afterWs := rest.dropWhile pyIsSpace
      if ws.isEmpty then none
      else
        let digits := afterWs.takeWhile pyIsDigit
        let afterDigits := afterWs.dropWhile pyIsDigit
        if digits.isEmpty then none
        else
          match afterDigits with
          | p :: r => if p ∈ [':', '.', '-'] then some (r.dropWhile pyIsSpace) else none
          | [] => none
    else none
  | _ => none

/-- `planner._LISTING_PREFIX.sub("", line)`: the pattern is anchored at the
start, so at most one leading marker is removed; alternatives are tried in
the regex order. -/
def stripListingMarker (s : Str) : Str :=
  match matchBulletMarker s with
  | some r => r
  | none =>
    match matchNumberMarker s with
    | some r => r
    | none =>
      match matchStepMarker s with
      | some r => r
      | none => s

/-- Python `str.splitlines()` restricted to the `\n`, `\r\n` and `\r`
line terminators. -/
def pySplitLinesAux : Str → Str → List Str
  | [], acc => if acc.isEmpty then [] else [acc.reverse]
  | '\r' :: '\n' :: rest, acc => acc.reverse :: pySplitLinesAux rest []
  | '\n' :: rest, acc => acc.reverse :: pySplitLinesAux rest []
  | '\r' :: rest, acc => acc.reverse :: pySplitLinesAux rest []
  | c :: rest, acc => pySplitLinesAux rest (c :: acc)

def pySplitLines (s : Str) : List Str := pySplitLinesAux s []

/-- `planner._normalize_ollama_output` (planner.py lines 223-237). -/
def normalizeOllamaOutput (rawPlan : Str) : List PlanStep :=
  let lines := (pySplitLines rawPlan).filterMap (fun rawLine =>
    let stripped := pyStrip rawLine
    if stripped.isEmpty then none
    else
      let stripped := stripListingMarker stripped
      if stripped.isEmpty then none else some stripped)
  lines.map (fun line => ⟨capitalize line, none, none⟩)

/-! ### `planner.generate_plan` -/

/-- The exception kinds the embedded code can raise: every raise in
`providers.py` is a `ProviderUnavailableError`; `pythonError` marks an
unhandled exception such as the `AttributeError` of calling `.get` on a
non-dict decoded reply. -/
inductive PyErr where
  | providerUnavailable (message : Str)
  | pythonError (message : Str)
deriving DecidableEq

/-- Lines 167-172 of `generate_plan`: the `if max_steps:` truncation
(`0` and `None` are falsy) followed by the environment-note backfill. -/
def finalizePlan (envMsg : Str) (maxSteps : Option Int) (plan : Plan) : Plan :=
  let plan :=
    match maxSteps with
    | some m => if m ≠ 0 then plan.truncated (some m) else plan
    | none => plan
  if plan.environment_note.isEmpty then ⟨plan.summary, plan.steps, envMsg⟩ else plan

/-- `planner.generate_plan` (planner.py lines 94-173).

`isTermux` injects the `detect_termux()` read; `providerReply` abstracts the
outcome of `request_plan_from_provider` (its raw text, or the
`ProviderUnavailableError` / `OllamaUnavailableError` it raises), and
`jsonParse` abstracts `json.loads`.  The returned boolean records whether
`request_plan_from_provider` was invoked. -/
def generatePlan (isTermux : Bool) (description : Str) (maxSteps : Option Int)
    (provider ollamaModel : Option Str)
    (providerReply : Except PyErr Str) (jsonParse : Str → Option JVal) :
    Except PyErr (Plan × Bool) :=
  let normalized := pyStrip (pyReplaceChar '\n' ' ' description)
  let envMsg := environmentMessage isTermux
  if normalized.isEmpty then .ok (⟨[], [], envMsg⟩, false)
  else
    let summary := deriveSummary normalized
    let resolvedProvider :=
      pyOrStrD provider (if truthyOptStr ollamaModel then kOllama else kHeuristic)
    if truthyStr resolvedProvider ∧ pyLower resolvedProvider ≠ kHeuristic then
      match providerReply with
      | .error e => .error e
      | .ok rawPlan =>
        let plan :=
          match parsePlanJson jsonParse rawPlan with
          | some parsedPlan =>
            let parsedPlan :=
              if parsedPlan.summary.isEmpty then
                ⟨summary, parsedPlan.steps, parsedPlan.environment_note⟩
              else parsedPlan
            if parsedPlan.environment_note.isEmpty then
              ⟨parsedPlan.summary, parsedPlan.steps, envMsg⟩
            else parsedPlan
          | none =>
            let steps := normalizeOllamaOutput rawPlan
            let steps := if steps.isEmpty then fallbackSteps normalized else steps
            (⟨summary, steps, envMsg⟩ : Plan)
        .ok (finalizePlan envMsg maxSteps plan, true)
    else
      .ok (finalizePlan envMsg maxSteps ⟨summary, fallbackSteps normalized, envMsg⟩, false)

/-! ### `providers.request_plan_from_provider` -/

def kApiKey : Str := "api_key".data
def kApiKeyEnv : Str := "api_key_env".data
def kApiBase : Str := "api_base".data
def kModelField : Str := "model".data
def kMessagesField : Str := "messages".data
def kAuthorization : Str := "Authorization".data
def kBearer : Str := "Bearer ".data
def kContentType : Str := "Content-Type".data
def kApplicationJson : Str := "application/json".data
def kGemini : Str := "gemini".data
def kCohere : Str := "cohere".data
def kOpenrouter : Str := "openrouter".data
def kHuggingface : Str := "huggingface".data
def kGeminiDefaultModel : Str := "gemini-1.5-flash".data
def kGeminiBase : Str := "https://generativelanguage.googleapis.com/v1beta".data
def kCohereBase : Str := "https://api.cohere.com/v1/chat".data
def kCohereVersionHeader : Str := "Cohere-Version".data
def kCohereVersionOption : Str := "cohere_version".data
def kCohereVersionDefault : Str := "2024-10-22".data
def kContents : Str := "contents".data
def kParts : Str := "parts".data
def kText : Str := "text".data
def kSystemInstruction : Str := "system_instruction".data
def kPreamble : Str := "preamble".data
def kMessage : Str := "message".data
def kChatHistory : Str := "chat_history".data
def kUserUpper : Str := "USER".data
def kChatbot : Str := "CHATBOT".data
def kGeminiModelRole : Str := "model".data
def kChoices : Str := "choices".data
def kCandidates : Str := "candidates".data
def kGenerations : Str := "generations".data
def kKeyParam : Str := "key".data

/-- `providers._OPENAI_COMPATIBLE_PROVIDERS`. -/
def openaiCompatibleProviders : List (Str × Str) :=
  [(kOpenrouter, "https://openrouter.ai/api/v1/chat/completions".data),
   (kHuggingface, "https://api-inference.huggingface.co/v1/chat/completions".data)]

/-- `dict.get(key)` over a string-to-string options mapping. -/
def sLookup : List (Str × Str) → Str → Option Str
  | [], _ => none
  | (k, v) :: rest, key => if k = key then some v else sLookup rest key

/-- `providers._resolve_api_key` (providers.py lines 118-125), with
`os.getenv` injected as `env`. -/
def resolveApiKey (options : List (Str × Str)) (env : Str → Option Str) : Option Str :=
  let direct := sLookup options kApiKey
  if truthyOptStr direct then direct
  else
    match sLookup options kApiKeyEnv with
    | some envName => if truthyStr envName then env envName else none
    | none => none

/-- One invocation of the injected `http_post` transport: the URL, the JSON
payload (recorded as a value; `json.dumps` serialisation is external), and
the merged headers. -/
structure HttpCall where
  url : Str
  payload : JVal
  headers : List (Str × Str)

/-- `providers._post_json` (providers.py lines 128-147) on its injected-
transport path (`http_post is not None`, the configuration every test and
every claim about the transport uses; the `urllib` fallback is I/O outside
the embedding).  Returns the reply text and the transport invocation. -/
def postJson (url : Str) (payload : JVal) (headers : List (Str × Str))
    (httpPost : HttpCall → Str) : Str × List HttpCall :=
  let merged := (kContentType, kApplicationJson) :: headers
  let call : HttpCall := ⟨url, payload, merged⟩
  (httpPost call, [call])

def chatMessageToJVal (m : ChatMessage) : JVal :=
  .obj [(kRole, .str m.role), (kContent, .str m.content)]

/-- Python `str.rstrip(chars)` for the single character `/`. -/
def rstripSlash (s : Str) : Str :=
  (s.reverse.dropWhile (fun c => c == '/')).reverse

/-- The message loop of `providers._build_gemini_payload`: threads the last
system prompt seen and accumulates role-mapped content blocks. -/
def geminiFold : List ChatMessage → Str → List JVal → Str × List JVal
  | [], systemPrompt, contents => (systemPrompt, contents)
  | m :: rest, systemPrompt, contents =>
    if m.role = kSystem then geminiFold rest m.content contents
    else
      let mappedRole := if m.role ≠ kAssistant then kUser else kGeminiModelRole
      geminiFold rest systemPrompt
        (contents ++ [.obj [(kRole, .str mappedRole), (kParts, .arr [.obj [(kText, .str m.content)]])]])

/-- `providers._build_gemini_payload` (providers.py lines 166-180). -/
def buildGeminiPayload (messages : List ChatMessage) : JVal :=
  let sc := geminiFold messages [] []
  .obj ([(kContents, .arr sc.2)]
    ++ (if truthyStr sc.1 then
          [(kSystemInstruction, .obj [(kParts, .arr [.obj [(kText, .str sc.1)]])])]
        else []))

/-- The message loop of `providers._build_cohere_payload`: returns the
system prompt, chat history and latest user message. -/
def cohereFold : List ChatMessage → Str → List JVal → Str → Str × List JVal × Str
  | [], systemPrompt, history, userMessage => (systemPrompt, history, userMessage)
  | m :: rest, systemPrompt, history, userMessage =>
    if m.role = kSystem then cohereFold rest m.content history userMessage
    else if m.role = kUser then
      if truthyStr userMessage then
        cohereFold rest systemPrompt
          (history ++ [.obj [(kRole, .str kUserUpper), (kMessage, .str userMessage)]]) m.content
      else cohereFold rest systemPrompt history m.content
    else if m.role = kAssistant then
      cohereFold rest systemPrompt
        (history ++ [.obj [(kRole, .str kChatbot), (kMessage, .str m.content)]]) userMessage
    else cohereFold rest systemPrompt history userMessage

/-- `providers._build_cohere_payload` (providers.py lines 202-230). -/
def buildCoherePayload (messages : List ChatMessage) (model : Str) : JVal :=
  let shu := cohereFold messages [] [] []
  .obj ([(kModelField, .str model), (kMessage, .str shu.2.2), (kChatHistory, .arr shu.2.1)]
    ++ (if truthyStr shu.1 then [(kPreamble, .str shu.1)] else []))

/-- `data.get(key)` where `data` was decoded by `json.loads`: calling `.get`
on a non-dict raises `AttributeError` (an unhandled Python error). -/
def pyDictGetE (v : JVal) (key : Str) : Except PyErr (Option JVal) :=
  match v with
  | .obj entries => .ok (jLookup entries key)
  | _ => .error (.pythonError "AttributeError".data)

/-- The `choices` loop of `providers._extract_openai_content`. -/
def openaiChoicesContent : List JVal → Option Str
  | [] => none
  | choice :: rest =>
    match choice with
    | .obj entries =>
      (match jLookup entries kMessage with
       | some (.obj message) =>
         (match jLookup message kContent with
          | some (.str content) => some content
          | _ => openaiChoicesContent rest)
       | _ => openaiChoicesContent rest)
    | _ => openaiChoicesContent rest

/-- `providers._extract_openai_content` (providers.py lines 150-163). -/
def extractOpenaiContent (jsonParse : Str → Option JVal) (raw : Str) : Except PyErr Str :=
  match jsonParse raw with
  | none => .error (.providerUnavailable "Unable to parse provider response as JSON.".data)
  | some data =>
    match pyDictGetE data kChoices with
    | .error e => .error e
    | .ok choicesField =>
      match choicesField with
      | some (.arr choices) =>
        (match openaiChoicesContent choices with
         | some content => .ok content
         | none =>
           .error (.providerUnavailable "Provider response did not include message content.".data))
      | _ =>
        .error (.providerUnavailable "Provider response did not include message content.".data)

/-- The `parts` loop of `providers._extract_gemini_content`. -/
def geminiPartsText : List JVal → Option Str
  | [] => none
  | part :: rest =>
    match part with
    | .obj entries =>
      (match jLookup entries kText with
       | some (.str text) => some text
       | _ => geminiPartsText rest)
    | _ => geminiPartsText rest

/-- The `candidates` loop of `providers._extract_gemini_content`. -/
def geminiCandidatesText : List JVal → Option Str
  | [] => none
  | candidate :: rest =>
    match candidate with
    | .obj entries =>
      (match jLookup entries kContent with
       | some (.obj content) =>
         (match jLookup content kParts with
          | some (.arr parts) =>
            (match geminiPartsText parts with
             | some text => some text
             | none => geminiCandidatesText rest)
          | _ => geminiCandidatesText rest)
       | _ => geminiCandidatesText rest)
    | _ => geminiCandidatesText rest

/-- `providers._extract_gemini_content` (providers.py lines 183-199). -/
def extractGeminiContent (jsonParse : Str → Option JVal) (raw : Str) : Except PyErr Str :=
  match jsonParse raw with
  | none => .error (.providerUnavailable "Unable to parse Gemini response.".data)
  | some data =>
    match pyDictGetE data kCandidates with
    | .error e => .error e
    | .ok candidatesField =>
      match candidatesField with
      | some (.arr candidates) =>
        (match geminiCandidatesText candidates with
         | some text => .ok text
         | none =>
           .error (.providerUnavailable "Gemini response did not include text content.".data))
      | _ => .error (.providerUnavailable "Gemini response did not include text content.".data)

/-- The `generations` loop of `providers._extract_cohere_content`. -/
def cohereGenerationsText : List JVal → Option Str
  | [] => none
  | generation :: rest =>
    match generation with
    | .obj entries =>
      (match jLookup entries kText with
       | some (.str text) => some text
       | _ => cohereGenerationsText rest)
    | _ => cohereGenerationsText rest

/-- `providers._extract_cohere_content` (providers.py lines 233-247). -/
def extractCohereContent (jsonParse : Str → Option JVal) (raw : Str) : Except PyErr Str :=
  match jsonParse raw with
  | none => .error (.providerUnavailable "Unable to parse Cohere response.".data)
  | some data =>
    match pyDictGetE data kText with
    | .error e => .error e
    | .ok textField =>
      match textField with
      | some (.str text) => .ok text
      | _ =>
        match pyDictGetE data kGenerations with
        | .error e => .error e
        | .ok generationsField =>
          match generationsField with
          | some (.arr generations) =>
            (match cohereGenerationsText generations with
             | some text => .ok text
             | none =>
               .error (.providerUnavailable "Cohere response did not include text content.".data))
          | _ =>
            .error (.providerUnavailable "Cohere response did not include text content.".data)

/-- `normalized_provider = provider.lower().strip()` (providers.py line 40). -/
def normalizeProviderName (provider : Str) : Str := pyStrip (pyLower provider)

/-- `providers.request_plan_from_provider` (providers.py lines 26-115).

`ollamaResult` abstracts `ollama_support.request_plan_from_ollama` (its
combined text or the error it raises), `env` abstracts `os.getenv`,
`httpPost` is the injected transport, `jsonParse` abstracts `json.loads`
and `urlencode` abstracts `urllib.parse.urlencode`.  The second component
is the list of transport invocations performed. -/
def requestPlanFromProvider (provider description : Str) (model : Option Str)
    (termux : Option Bool) (chainOfThought stream : Bool)
    (options : List (Str × Str)) (ollamaResult : Except PyErr Str)
    (env : Str → Option Str) (httpPost : HttpCall → Str)
    (jsonParse : Str → Option JVal) (urlencode : List (Str × Str) → Str) :
    Except PyErr Str × List HttpCall :=
  let normalizedProvider := normalizeProviderName provider
  if normalizedProvider = [] ∨ normalizedProvider = kHeuristic then
    (.error (.providerUnavailable "The heuristic provider does not produce remote responses.".data), [])
  else if normalizedProvider = kOllama then
    (if truthyOptStr model then ollamaResult
     else .error (.providerUnavailable "Specify --model when using the Ollama provider.".data), [])
  else
    let messages := buildMessages chainOfThought description termux none
    match sLookup openaiCompatibleProviders normalizedProvider with
    | some defaultUrl =>
      let baseUrl := pyOrStrD (sLookup options kApiBase) defaultUrl
      let apiKey := resolveApiKey options env
      if ¬ truthyOptStr apiKey then
        (.error (.providerUnavailable ("An API key is required for OpenAI-compatible providers. Set --api-key "
          ++ "or configure llm.api_key_env.").data), [])
      else if ¬ truthyOptStr model then
        (.error (.providerUnavailable "Specify --model for the selected provider.".data), [])
      else
        let payload := JVal.obj [(kModelField, .str (model.getD [])),
                                 (kMessagesField, .arr (messages.map chatMessageToJVal))]
        let rc := postJson baseUrl payload [(kAuthorization, kBearer ++ apiKey.getD [])] httpPost
        (extractOpenaiContent jsonParse rc.1, rc.2)
    | none =>
      if normalizedProvider = kGemini then
        let apiKey := resolveApiKey options env
        if ¬ truthyOptStr apiKey then
          (.error (.providerUnavailable "Gemini requires an API key. Configure llm.api_key_env or pass --api-key.".data), [])
        else
          let geminiModel := pyOrStrD model kGeminiDefaultModel
          let baseUrl := pyOrStrD (sLookup options kApiBase) kGeminiBase
          let url := rstripSlash baseUrl ++ "/models/".data ++ geminiModel ++ ":generateContent".data
          let url := url ++ "?".data ++ urlencode [(kKeyParam, apiKey.getD [])]
          let rc := postJson url (buildGeminiPayload messages) [] httpPost
          (extractGeminiContent jsonParse rc.1, rc.2)
      else if normalizedProvider = kCohere then
        let apiKey := resolveApiKey options env
        if ¬ truthyOptStr apiKey then
          (.error (.providerUnavailable "Cohere requires an API key. Configure llm.api_key_env or pass --api-key.".data), [])
        else if ¬ truthyOptStr model then
          (.error (.providerUnavailable "Specify --model for the Cohere provider.".data), [])
        else
          let baseUrl := pyOrStrD (sLookup options kApiBase) kCohereBase
          let payload := buildCoherePayload messages (model.getD [])
          let headers := [(kAuthorization, kBearer ++ apiKey.getD []),
                          (kCohereVersionHeader, (sLookup options kCohereVersionOption).getD kCohereVersionDefault)]
          let rc := postJson baseUrl payload headers httpPost
          (extractCohereContent jsonParse rc.1, rc.2)
      else
        (.error (.providerUnavailable ("Unknown provider '".data ++ provider ++ "'.".data)), [])

/-! ### `ollama_support._extract_content` -/

/-- A Python value as the Ollama chat callable may return it: `None`, a
string, a dict, an attribute-bearing object (`SimpleNamespace`-like, no
`__getitem__`), a subscriptable mapping-like object, or anything else. -/
inductive PyVal where
  | pynone
  | str (s : Str)
  | dict (entries : List (Str × PyVal))
  | objAttrs (attrs : List (Str × PyVal))
  | objItems (items : List (Str × PyVal))
  | otherVal

def pvLookup : List (Str × PyVal) → Str → Option PyVal
  | [], _ => none
  | (k, v) :: rest, key => if k = key then some v else pvLookup rest key

/-- `getattr(value, name, None)`: only the attribute-bearing object shape
exposes the probed `message` / `content` attributes. -/
def pyGetAttr : PyVal → Str → Option PyVal
  | .objAttrs attrs, name => pvLookup attrs name
  | _, _ => none

/-- `hasattr(value, "__getitem__")`: dicts, subscriptable objects and
strings are subscriptable. -/
def pyHasGetItem : PyVal → Bool
  | .dict _ => true
  | .objItems _ => true
  | .str _ => true
  | _ => false

/-- `value[key]` for a string key, with every raised exception (missing key,
non-subscriptable value, string indexed by a string) mapped to `none` — the
source wraps these subscripts in `try ... except Exception`. -/
def pyGetItem : PyVal → Str → Option PyVal
  | .dict entries, key => pvLookup entries key
  | .objItems items, key => pvLookup items key
  | _, _ => none

/-- `ollama_support._extract_content` (ollama_support.py lines 51-75),
transcribing the source's four sequential probes. -/
def extractContent (result : PyVal) : Str :=
  let firstProbe : Option Str :=
    match result with
    | .dict entries =>
      (match pvLookup entries kMessage with
       | some (.dict message) =>
         (match pvLookup message kContent with
          | some (.str content) => some content
          | _ => none)
       | _ => none)
    | _ => none
  match firstProbe with
  | some content => content
  | none =>
    let secondProbe : Option Str :=
      match pyGetAttr result kMessage with
      | some .pynone => none
      | some message =>
        (match pyGetAttr message kContent with
         | some (.str content) => some content
         | _ => none)
      | none => none
    match secondProbe with
    | some content => content
    | none =>
      let thirdProbe : Option Str :=
        if pyHasGetItem result then
          match pyGetItem result kMessage with
          | some message =>
            (match pyGetItem message kContent with
             | some (.str content) => some content
             | _ => none)
          | none => none
        else none
      match thirdProbe with
      | some content => content
      | none =>
        match result with
        | .str s => s
        | _ => []

/-! ### Specification-side definitions (stated from the claims' wording, to
be compared against the embedded source functions) -/

/-- The claims' description of the heuristic sentence segmentation: split
the normalized description on `.` / `!` / `?` (the latter two first turned
into periods), trim each segment, drop the blank ones. -/
def sentenceSegments (s : Str) : List Str :=
  ((pySplitChar '.' (pyReplaceChar '!' '.' (pyReplaceChar '?' '.' s))).map pyStrip).filter
    (fun t => !t.isEmpty)

/-- The summary-override the strict-JSON parse extracts from a decoded
object. -/
def extractedSummary (payload : List (Str × JVal)) : Str :=
  match jLookup payload kTaskSummary with
  | some (.str s) => pyStrip s
  | _ => []

/-- The environment text the strict-JSON parse extracts from a decoded
object. -/
def extractedEnvironment (payload : List (Str × JVal)) : Str :=
  normalizeEnvironmentText (jLookup payload kEnvironmentKey)

/-- The usable steps the strict-JSON parse extracts from a decoded object. -/
def extractedSteps (payload : List (Str × JVal)) : List PlanStep :=
  match jLookup payload kSteps with
  | some (.arr entries) => parseStepEntries entries
  | _ => []

/-- The mapping-of-mapping reply shape of the Ollama content extraction:
a dict whose `message` entry is a dict whose `content` entry is a string. -/
def MappingShape (r : PyVal) (content : Str) : Prop :=
  ∃ entries message, r = .dict entries
    ∧ pvLookup entries kMessage = some (.dict message)
    ∧ pvLookup message kContent = some (.str content)

/-- The attribute-bearing reply shape: a non-`None` `message` attribute
whose `content` attribute is a string. -/
def AttrShape (r : PyVal) (content : Str) : Prop :=
  ∃ message, pyGetAttr r kMessage = some message ∧ message ≠ .pynone
    ∧ pyGetAttr message kContent = some (.str content)

/-- The subscriptable reply shape: `r["message"]["content"]` succeeds and
is a string. -/
def ItemShape (r : PyVal) (content : Str) : Prop :=
  pyHasGetItem r = true
    ∧ ∃ message, pyGetItem r kMessage = some message
        ∧ pyGetItem message kContent = some (.str content)

/-- A step as the normalizer constructs one on every path: a non-blank,
stripped title that the capitalization helper leaves unchanged, and
commands/notes that are either absent or non-blank and stripped. -/
def cleanOptText : Option Str → Bool
  | none => true
  | some s => !s.isEmpty && (pyStrip s == s)

def normalizedStep (s : PlanStep) : Bool :=
  !s.title.isEmpty && (pyStrip s.title == s.title) && (capitalize s.title == s.title)
    && cleanOptText s.command && cleanOptText s.notes

/-- A plan as the normalizer returns one: normalized steps and a non-empty,
stripped environment note carrying the `Environment:` tag. -/
def normalizedPlan (p : Plan) : Bool :=
  p.steps.all normalizedStep && !p.environment_note.isEmpty
    && (pyStrip p.environment_note == p.environment_note)
    && pyStartsWith (pyLower p.environment_note) envTag

/-- The keys of a serialized object. -/
def objKeys : JVal → List Str
  | .obj entries => entries.map Prod.fst
  | _ => []

/-! ### Shared helper lemmas -/

theorem environmentMessage_ne_nil (b : Bool) : environmentMessage b ≠ [] := by
  cases b <;> decide

theorem environmentMessage_isEmpty (b : Bool) : (environmentMessage b).isEmpty = false := by
  cases b <;> decide

/-! ### Claim theorems -/

/-- C8, counterexample: the claim says the helper uppercases the first
character only and leaves the rest of the string untouched, so
already-capitalized text would come back unchanged; on the input `"A "`
the code strips the trailing blank and returns `"A"`. -/
theorem capitalize_counterexample :
    capitalize (("A ").data) ≠ ("A ").data ∧ capitalize (("A ").data) = ("A").data := by
  decide

/-- C8, amended: `_capitalize` first strips surrounding whitespace, then
uppercases the first character of the stripped text and leaves the rest of
the stripped text untouched; empty or blank input maps to the empty string
(hence already-capitalized *stripped* text is returned unchanged). -/
theorem capitalize_amended (s : Str) :
    capitalize s = (match pyStrip s with
      | [] => ([] : Str)
      | c :: rest => c.toUpper :: rest) := by
  unfold capitalize
  by_cases h : s.isEmpty
  · have hs : s = [] := by simpa using h
    subst hs
    simp [pyStrip]
  · simp only [h, Bool.false_eq_true, if_false]
    cases hs : pyStrip s with
    | nil => simp [hs]
    | cons c rest => simp [hs]

/-- C10: `PlanStep.to_dict` always carries `"title"`, carries `"command"`
iff the command is a non-empty string, carries `"notes"` iff the notes are
a non-empty string, and `Plan.to_dict` has exactly the keys `"summary"`,
`"steps"`, `"environment"`. -/
theorem to_dict_keys (s : PlanStep) (p : Plan) :
    kTitle ∈ objKeys s.toDict
    ∧ (kCommand ∈ objKeys s.toDict ↔ ∃ c, s.command = some c ∧ c ≠ [])
    ∧ (kNotes ∈ objKeys s.toDict ↔ ∃ n, s.notes = some n ∧ n ≠ [])
    ∧ objKeys p.toDict = [kSummary, kSteps, kEnvironmentKey] := by
  have hct : kCommand ≠ kTitle := by decide
  have hcn : kCommand ≠ kNotes := by decide
  have hnt : kNotes ≠ kTitle := by decide
  have hnc : kNotes ≠ kCommand := by decide
  refine ⟨?_, ?_, ?_, rfl⟩
  · simp [PlanStep.toDict, objKeys]
  · rcases hc : s.command with _ | c
    · simp [PlanStep.toDict, objKeys, truthyOptStr, hc, hct, hcn]
    · by_cases hce : c = []
      · subst hce
        simp [PlanStep.toDict, objKeys, truthyOptStr, truthyStr, hc, hct, hcn]
      · simp [PlanStep.toDict, objKeys, truthyOptStr, truthyStr, hc, hce, hct, hcn]
  · rcases hn : s.notes with _ | n
    · simp [PlanStep.toDict, objKeys, truthyOptStr, hn, hnt, hnc]
    · by_cases hne : n = []
      · subst hne
        simp [PlanStep.toDict, objKeys, truthyOptStr, truthyStr, hn, hnt, hnc]
      · simp [PlanStep.toDict, objKeys, truthyOptStr, truthyStr, hn, hne, hnt, hnc]

/-- C6: an empty or whitespace-only description (after collapsing line
breaks to spaces and trimming) short-circuits `generate_plan`: it returns
a Plan with empty summary, zero steps and the non-empty environment note,
without error and without invoking the provider (the returned flag is
`false`). -/
theorem empty_description_plan (isTermux : Bool) (description : Str)
    (maxSteps : Option Int) (provider ollamaModel : Option Str)
    (providerReply : Except PyErr Str) (jsonParse : Str → Option JVal)
    (h : pyStrip (pyReplaceChar '\n' ' ' description) = []) :
    generatePlan isTermux description maxSteps provider ollamaModel providerReply jsonParse
      = .ok (⟨[], [], environmentMessage isTermux⟩, false)
    ∧ environmentMessage isTermux ≠ [] := by
  refine ⟨?_, environmentMessage_ne_nil isTermux⟩
  unfold generatePlan
  simp [h]

/-- Witness for C6 at a concrete whitespace-only description. -/
theorem empty_description_plan_witness :
    pyStrip (pyReplaceChar '\n' ' ' ((" \n  ").data)) = []
    ∧ (generatePlan true ((" \n  ").data) (some 3) none none (Except.ok []) (fun _ => none)
        = .ok (⟨[], [], environmentMessage true⟩, false)
      ∧ environmentMessage true ≠ []) :=
  ⟨by decide,
   empty_description_plan true ((" \n  ").data) (some 3) none none (Except.ok [])
     (fun _ => none) (by decide)⟩

/-- The list comprehension of `_fallback_steps` as a `filterMap` equals the
map-then-filter form used in the claim-side `sentenceSegments`. -/
theorem filterMap_strip_eq (l : List Str) :
    l.filterMap (fun sentence =>
      let s := pyStrip sentence
      if s.isEmpty then none else some s)
    = (l.map pyStrip).filter (fun t => !t.isEmpty) := by
  induction l with
  | nil => rfl
  | cons a l ih =>
    simp only [List.filterMap_cons, List.map_cons, List.filter_cons,
      List.isEmpty_eq_true] at ih ⊢
    by_cases h : pyStrip a = []
    · simp [h, ih]
    · simp [h, ih]

theorem fallbackSteps_eq_segments (normalized : Str) :
    fallbackSteps normalized
      = (sentenceSegments normalized).map (fun seg => ⟨capitalize seg, none, none⟩) := by
  unfold fallbackSteps sentenceSegments
  rw [filterMap_strip_eq]

/-- C2: for a non-empty description with no provider selected,
`generate_plan` emits one step per non-blank sentence segment of the
normalized description (title = capitalized trimmed segment, no command,
no notes; in particular the step count equals the segment count), and the
environment note starts with the literal tag `Environment:`.  The provider
dispatcher is not invoked (flag `false`). -/
theorem heuristic_plan_characterization (isTermux : Bool) (description : Str)
    (providerReply : Except PyErr Str) (jsonParse : Str → Option JVal)
    (h : description ≠ []) :
    generatePlan isTermux description none none none providerReply jsonParse
      = .ok (⟨deriveSummary (pyStrip (pyReplaceChar '\n' ' ' description)),
             (sentenceSegments (pyStrip (pyReplaceChar '\n' ' ' description))).map
               (fun seg => ⟨capitalize seg, none, none⟩),
             environmentMessage isTermux⟩, false)
    ∧ pyStartsWith (environmentMessage isTermux) (("Environment:").data) = true := by
  constructor
  · unfold generatePlan
    by_cases hn : (pyStrip (pyReplaceChar '\n' ' ' description)).isEmpty
    · have hns : pyStrip (pyReplaceChar '\n' ' ' description) = [] := by simpa using hn
      simp [hn, hns]
      exact ⟨rfl, rfl⟩
    · simp only [hn, Bool.false_eq_true, if_false]
      have hcond : ¬ (truthyStr (pyOrStrD none (if truthyOptStr none then kOllama else kHeuristic)) ∧
          pyLower (pyOrStrD none (if truthyOptStr none then kOllama else kHeuristic)) ≠ kHeuristic) := by
        decide
      rw [if_neg hcond]
      rw [fallbackSteps_eq_segments]
      unfold finalizePlan
      simp [environmentMessage_isEmpty]
  · cases isTermux <;> decide

/-- Witness for C2 at a concrete two-sentence description. -/
theorem heuristic_plan_characterization_witness :
    (("install git. run tests").data ≠ [])
    ∧ (generatePlan false (("install git. run tests").data) none none none
          (Except.ok []) (fun _ => none)
        = .ok (⟨deriveSummary (pyStrip (pyReplaceChar '\n' ' ' (("install git. run tests").data))),
               (sentenceSegments (pyStrip (pyReplaceChar '\n' ' ' (("install git. run tests").data)))).map
                 (fun seg => ⟨capitalize seg, none, none⟩),
               environmentMessage false⟩, false)
      ∧ pyStartsWith (environmentMessage false) (("Environment:").data) = true) :=
  ⟨by decide,
   heuristic_plan_characterization false (("install git. run tests").data)
     (Except.ok []) (fun _ => none) (by decide)⟩

/-- C7: `build_messages` appends exactly one final user message whose
content is, in order: the fixed plan-before-execution instruction; when
chain-of-thought is enabled, as the second line, the reason-step-by-step
instruction; the environment hint chosen by the termux flag; and the
trimmed task text (prefixed by the literal `Task: ` tag), all joined with
newlines.  The embedding is a pure function of its inputs, so identical
inputs give byte-identical message lists. -/
theorem build_messages_characterization (cot : Bool) (description : Str)
    (termux : Option Bool) (history : Option (List (List (Str × JVal)))) :
    buildMessages cot description termux history
      = ⟨kSystem, terdexSystemPrompt⟩
        :: ((match history with | some entries => historyMessages entries | none => [])
        ++ [⟨kUser, joinNewline ([planDirective]
              ++ (if cot then [cotDirective] else [])
              ++ [(if termux = some true then hintTermux else hintGeneric),
                  taskTag ++ pyStrip description])⟩]) := by
  unfold buildMessages
  rcases history with _ | entries
  · cases cot <;> simp [pyListInsert, historyMessages]
  · by_cases he : entries.isEmpty
    · have hee : entries = [] := by simpa using he
      subst hee
      cases cot <;> simp [pyListInsert, historyMessages]
    · simp only [he, Bool.false_eq_true, if_false]
      cases cot <;> simp [pyListInsert]

/-- The strict-JSON parse of a decoded object, factored through the
claim-side extraction functions (definitionally equal to the source's
let-bindings). -/
theorem parsePlanPayload_obj (payload : List (Str × JVal)) :
    parsePlanPayload (.obj payload)
      = (if (extractedSteps payload).isEmpty && (extractedSummary payload).isEmpty
            && (extractedEnvironment payload).isEmpty
         then none
         else some ⟨extractedSummary payload, extractedSteps payload,
                    extractedEnvironment payload⟩) := rfl

/-- C5: for raw text that decodes to a JSON object, the strict-JSON parse
result is discarded (`none`, so `generate_plan` falls through to the
loose-line parse) iff it yields zero usable steps, an empty
summary-override, and no environment text; otherwise the parsed plan is
returned with exactly those three components. -/
theorem strict_json_gate (jsonParse : Str → Option JVal) (raw : Str)
    (payload : List (Str × JVal)) (h : jsonParse raw = some (JVal.obj payload)) :
    parsePlanJson jsonParse raw
      = (if extractedSteps payload = [] ∧ extractedSummary payload = []
            ∧ extractedEnvironment payload = []
         then none
         else some ⟨extractedSummary payload, extractedSteps payload,
                    extractedEnvironment payload⟩) := by
  unfold parsePlanJson
  rw [h]
  show parsePlanPayload (JVal.obj payload) = _
  rw [parsePlanPayload_obj]
  by_cases hc : extractedSteps payload = [] ∧ extractedSummary payload = []
      ∧ extractedEnvironment payload = []
  · rw [if_pos hc, if_pos]
    simp [hc.1, hc.2.1, hc.2.2]
  · rw [if_neg hc, if_neg]
    simp only [Bool.and_eq_true, List.isEmpty_eq_true]
    tauto

/-- Witness for C5: a payload with only a `task_summary` is kept (the
summary alone suffices). -/
theorem strict_json_gate_witness :
    ((fun (_ : Str) => some (JVal.obj [(kTaskSummary, JVal.str (("Install git").data))])) []
        = some (JVal.obj [(kTaskSummary, JVal.str (("Install git").data))]))
    ∧ parsePlanJson
        (fun _ => some (JVal.obj [(kTaskSummary, JVal.str (("Install git").data))])) []
      = (if extractedSteps [(kTaskSummary, JVal.str (("Install git").data))] = []
            ∧ extractedSummary [(kTaskSummary, JVal.str (("Install git").data))] = []
            ∧ extractedEnvironment [(kTaskSummary, JVal.str (("Install git").data))] = []
         then none
         else some ⟨extractedSummary [(kTaskSummary, JVal.str (("Install git").data))],
                    extractedSteps [(kTaskSummary, JVal.str (("Install git").data))],
                    extractedEnvironment [(kTaskSummary, JVal.str (("Install git").data))]⟩) :=
  ⟨rfl, strict_json_gate _ [] [(kTaskSummary, JVal.str (("Install git").data))] rfl⟩

/-- C3, counterexample: with `max_steps = 0` the cap is ignored (Python
`if max_steps:` treats `0` as falsy), so a two-sentence description keeps
both steps although `min(0, 2) = 0`. -/
theorem max_steps_zero_counterexample :
    (generatePlan false (("Do a. Do b").data) none none none (Except.ok [])
        (fun _ => none)).map (fun pb => pb.1.steps.length) = .ok 2
    ∧ (generatePlan false (("Do a. Do b").data) (some 0) none none (Except.ok [])
        (fun _ => none)).map (fun pb => pb.1.steps.length) = .ok 2
    ∧ (2 : Nat) ≠ min 0 2 := by
  refine ⟨rfl, rfl, by decide⟩

/-- The `if max_steps:` truncation plus environment backfill for a positive
cap equals the uncapped finalization with the steps cut to the first `N`. -/
theorem finalizePlan_pos (envMsg : Str) (N : Int) (hN : 1 ≤ N) (p : Plan) :
    finalizePlan envMsg (some N) p
      = ⟨(finalizePlan envMsg none p).summary,
         (finalizePlan envMsg none p).steps.take N.toNat,
         (finalizePlan envMsg none p).environment_note⟩ := by
  have hN0 : N ≠ 0 := by omega
  have h0N : 0 ≤ N := by omega
  unfold finalizePlan Plan.truncated pySliceUpTo
  simp only [if_pos hN0, if_pos h0N]
  by_cases hl : (p.steps.length : Int) ≤ N
  · have htake : p.steps.take N.toNat = p.steps := List.take_of_length_le (by omega)
    simp only [if_pos hl]
    by_cases he : p.environment_note.isEmpty <;> simp [he, htake]
  · simp only [if_neg hl]
    by_cases he : p.environment_note.isEmpty <;> simp [he]

/-- C3, amended: for every *positive* cap `N ≥ 1`, `generate_plan` with
`max_steps = N` returns the uncapped plan with its steps cut to the first
`N` (hence exactly `min(N, originalStepCount)` steps, original order),
with summary and environment note unchanged.  (`max_steps = 0` is ignored
and negative values slice from the end, which the counterexample shows.) -/
theorem max_steps_truncation_amended (isTermux : Bool) (description : Str)
    (provider ollamaModel : Option Str) (providerReply : Except PyErr Str)
    (jsonParse : Str → Option JVal) (N : Int) (hN : 1 ≤ N) :
    generatePlan isTermux description (some N) provider ollamaModel providerReply jsonParse
      = (generatePlan isTermux description none provider ollamaModel providerReply jsonParse).map
          (fun pb => (⟨pb.1.summary, pb.1.steps.take N.toNat, pb.1.environment_note⟩, pb.2))
    ∧ (generatePlan isTermux description (some N) provider ollamaModel providerReply jsonParse).map
          (fun pb => pb.1.steps.length)
      = (generatePlan isTermux description none provider ollamaModel providerReply jsonParse).map
          (fun pb => min N.toNat pb.1.steps.length) := by
  have main : generatePlan isTermux description (some N) provider ollamaModel providerReply jsonParse
      = (generatePlan isTermux description none provider ollamaModel providerReply jsonParse).map
          (fun pb => (⟨pb.1.summary, pb.1.steps.take N.toNat, pb.1.environment_note⟩, pb.2)) := by
    unfold generatePlan
    by_cases hn : (pyStrip (pyReplaceChar '\n' ' ' description)).isEmpty
    · simp [hn, Except.map]
    · simp only [hn, Bool.false_eq_true, if_false]
      by_cases hp : truthyStr (pyOrStrD provider (if truthyOptStr ollamaModel then kOllama else kHeuristic))
          ∧ pyLower (pyOrStrD provider (if truthyOptStr ollamaModel then kOllama else kHeuristic)) ≠ kHeuristic
      · simp only [if_pos hp]
        cases providerReply with
        | error e => rfl
        | ok rawPlan =>
          simp only [Except.map]
          rw [finalizePlan_pos _ N hN]
      · simp only [if_neg hp]
        simp only [Except.map]
        rw [finalizePlan_pos _ N hN]
  refine ⟨main, ?_⟩
  rw [main]
  cases hg : generatePlan isTermux description none provider ollamaModel providerReply jsonParse with
  | error e => rfl
  | ok pb => simp [Except.map, List.length_take]

/-- Witness for C3 at `N = 1` on a concrete two-sentence description. -/
theorem max_steps_truncation_amended_witness :
    ((1 : Int) ≤ 1)
    ∧ (generatePlan false (("Do a. Do b").data) (some 1) none none (Except.ok []) (fun _ => none)
        = (generatePlan false (("Do a. Do b").data) none none none (Except.ok []) (fun _ => none)).map
            (fun pb => (⟨pb.1.summary, pb.1.steps.take (1 : Int).toNat, pb.1.environment_note⟩, pb.2))
      ∧ (generatePlan false (("Do a. Do b").data) (some 1) none none (Except.ok []) (fun _ => none)).map
            (fun pb => pb.1.steps.length)
        = (generatePlan false (("Do a. Do b").data) none none none (Except.ok []) (fun _ => none)).map
            (fun pb => min (1 : Int).toNat pb.1.steps.length)) :=
  ⟨by decide,
   max_steps_truncation_amended false (("Do a. Do b").data) none none (Except.ok [])
     (fun _ => none) 1 (by decide)⟩

/-- C4: requesting one of the OpenAI-compatible (`openrouter`,
`huggingface`), `gemini` or `cohere` REST providers without a resolvable
API key (no truthy `api_key` option and no truthy value via `api_key_env`)
fails with `ProviderUnavailableError` whatever the model and other options,
and the injected `http_post` transport is never invoked (empty call log). -/
theorem missing_api_key_no_transport (provider description : Str) (model : Option Str)
    (termux : Option Bool) (chainOfThought stream : Bool)
    (options : List (Str × Str)) (ollamaResult : Except PyErr Str)
    (env : Str → Option Str) (httpPost : HttpCall → Str)
    (jsonParse : Str → Option JVal) (urlencode : List (Str × Str) → Str)
    (hprov : normalizeProviderName provider = kOpenrouter
        ∨ normalizeProviderName provider = kHuggingface
        ∨ normalizeProviderName provider = kGemini
        ∨ normalizeProviderName provider = kCohere)
    (hkey : truthyOptStr (resolveApiKey options env) = false) :
    (∃ msg, (requestPlanFromProvider provider description model termux chainOfThought stream
        options ollamaResult env httpPost jsonParse urlencode).1
      = .error (.providerUnavailable msg))
    ∧ (requestPlanFromProvider provider description model termux chainOfThought stream
        options ollamaResult env httpPost jsonParse urlencode).2 = [] := by
  unfold requestPlanFromProvider
  rcases hprov with h | h | h | h <;>
    simp [h, hkey, sLookup, openaiCompatibleProviders,
      show kOpenrouter ≠ kHeuristic from by decide,
      show kOpenrouter ≠ kOllama from by decide,
      show kOpenrouter ≠ [] from by decide,
      show kHuggingface ≠ kHeuristic from by decide,
      show kHuggingface ≠ kOllama from by decide,
      show kHuggingface ≠ [] from by decide,
      show ¬ (kOpenrouter = kHuggingface) from by decide,
      show ¬ (kHuggingface = kOpenrouter) from by decide,
      show kGemini ≠ kHeuristic from by decide,
      show kGemini ≠ kOllama from by decide,
      show kGemini ≠ [] from by decide,
      show ¬ (kOpenrouter = kGemini) from by decide,
      show ¬ (kHuggingface = kGemini) from by decide,
      show kCohere ≠ kHeuristic from by decide,
      show kCohere ≠ kOllama from by decide,
      show kCohere ≠ [] from by decide,
      show ¬ (kOpenrouter = kCohere) from by decide,
      show ¬ (kHuggingface = kCohere) from by decide,
      show ¬ (kCohere = kGemini) from by decide]

/-- Witness for C4: the `openrouter` provider with empty options and an
empty process environment. -/
theorem missing_api_key_no_transport_witness :
    (normalizeProviderName (("openrouter").data) = kOpenrouter
        ∨ normalizeProviderName (("openrouter").data) = kHuggingface
        ∨ normalizeProviderName (("openrouter").data) = kGemini
        ∨ normalizeProviderName (("openrouter").data) = kCohere)
    ∧ truthyOptStr (resolveApiKey [] (fun _ => none)) = false
    ∧ ((∃ msg, (requestPlanFromProvider (("openrouter").data) (("task").data)
          (some (("meta/llama").data)) none false false [] (Except.ok [])
          (fun _ => none) (fun _ => []) (fun _ => none) (fun _ => [])).1
        = .error (.providerUnavailable msg))
      ∧ (requestPlanFromProvider (("openrouter").data) (("task").data)
          (some (("meta/llama").data)) none false false [] (Except.ok [])
          (fun _ => none) (fun _ => []) (fun _ => none) (fun _ => [])).2 = []) :=
  ⟨Or.inl (by decide), by decide,
   missing_api_key_no_transport (("openrouter").data) (("task").data)
     (some (("meta/llama").data)) none false false [] (Except.ok [])
     (fun _ => none) (fun _ => []) (fun _ => none) (fun _ => [])
     (Or.inl (by decide)) (by decide)⟩

theorem cleanText_clean (s : Str) (h1 : pyStrip s = s) (h2 : s ≠ []) :
    cleanText (some (.str s)) = some s := by
  unfold cleanText
  simp [h1, h2]

theorem cleanText_none : cleanText none = none := rfl

theorem parseStepEntry_toDict (s : PlanStep) (h : normalizedStep s = true) :
    parseStepEntry s.toDict = some s := by
  obtain ⟨title, command, notes⟩ := s
  simp only [normalizedStep, Bool.and_eq_true, beq_iff_eq, Bool.not_eq_true',
    List.isEmpty_eq_false] at h
  obtain ⟨⟨⟨⟨htne, hts⟩, htc⟩, hc⟩, hn⟩ := h
  have hct : ¬ (kCommand = kTitle) := by decide
  have hnt : ¬ (kNotes = kTitle) := by decide
  have hcs : ¬ (kCommand = kSummary) := by decide
  have hns : ¬ (kNotes = kSummary) := by decide
  have hca : ¬ (kCommand = kAction) := by decide
  have hna : ¬ (kNotes = kAction) := by decide
  have htc2 : ¬ (kTitle = kCommand) := by decide
  have hnc2 : ¬ (kNotes = kCommand) := by decide
  have htn2 : ¬ (kTitle = kNotes) := by decide
  have hcn2 : ¬ (kCommand = kNotes) := by decide
  have htn3 : ¬ (kTitle = kNote) := by decide
  have hcn3 : ¬ (kCommand = kNote) := by decide
  have hnn3 : ¬ (kNotes = kNote) := by decide
  have htd : ¬ (kTitle = kDetails) := by decide
  have hcd : ¬ (kCommand = kDetails) := by decide
  have hnd : ¬ (kNotes = kDetails) := by decide
  rcases command with _ | c <;> rcases notes with _ | n
  · simp [PlanStep.toDict, parseStepEntry, jLookup, pyOr, truthyOptJVal, truthyJVal,
      truthyOptStr, truthyStr, htne, hts, htc, cleanText_clean _ hts htne, cleanText_none,
      hct, hnt, hcs, hns, hca, hna, htc2, hnc2, htn2, hcn2, htn3, hcn3, hnn3, htd, hcd, hnd]
  · simp only [cleanOptText, Bool.and_eq_true, beq_iff_eq, Bool.not_eq_true',
      List.isEmpty_eq_false] at hn
    simp [PlanStep.toDict, parseStepEntry, jLookup, pyOr, truthyOptJVal, truthyJVal,
      truthyOptStr, truthyStr, htne, hts, htc, hn.1, hn.2,
      cleanText_clean _ hts htne, cleanText_none, cleanText_clean _ hn.2 hn.1,
      hct, hnt, hcs, hns, hca, hna, htc2, hnc2, htn2, hcn2, htn3, hcn3, hnn3, htd, hcd, hnd]
  · simp only [cleanOptText, Bool.and_eq_true, beq_iff_eq, Bool.not_eq_true',
      List.isEmpty_eq_false] at hc
    simp [PlanStep.toDict, parseStepEntry, jLookup, pyOr, truthyOptJVal, truthyJVal,
      truthyOptStr, truthyStr, htne, hts, htc, hc.1, hc.2,
      cleanText_clean _ hts htne, cleanText_none, cleanText_clean _ hc.2 hc.1,
      hct, hnt, hcs, hns, hca, hna, htc2, hnc2, htn2, hcn2, htn3, hcn3, hnn3, htd, hcd, hnd]
  · simp only [cleanOptText, Bool.and_eq_true, beq_iff_eq, Bool.not_eq_true',
      List.isEmpty_eq_false] at hc hn
    simp [PlanStep.toDict, parseStepEntry, jLookup, pyOr, truthyOptJVal, truthyJVal,
      truthyOptStr, truthyStr, htne, hts, htc, hc.1, hc.2, hn.1, hn.2,
      cleanText_clean _ hts htne, cleanText_none, cleanText_clean _ hc.2 hc.1, cleanText_clean _ hn.2 hn.1,
      hct, hnt, hcs, hns, hca, hna, htc2, hnc2, htn2, hcn2, htn3, hcn3, hnn3, htd, hcd, hnd]

theorem parseStepEntries_toDict (steps : List PlanStep) (h : steps.all normalizedStep = true) :
    parseStepEntries (steps.map PlanStep.toDict) = steps := by
  induction steps with
  | nil => rfl
  | cons a l ih =>
    simp only [List.all_cons, Bool.and_eq_true] at h
    simp only [List.map_cons, parseStepEntries, List.filterMap_cons,
      parseStepEntry_toDict a h.1]
    have := ih h.2
    simp only [parseStepEntries] at this
    rw [this]

/-- C1, amended: for every normalizer-shaped plan (non-blank stripped
titles fixed under the capitalization helper, commands/notes absent or
non-blank and stripped, non-empty stripped environment note starting with
the `Environment:` tag), parsing `Plan.to_dict` back through the
strict-JSON path reproduces the same ordered steps (titles, commands,
notes) and the same environment note, but an *empty* summary — the
serialized `summary` key is not read back. -/
theorem plan_roundtrip_amended (p : Plan) (h : normalizedPlan p = true) :
    parsePlanPayload (Plan.toDict p) = some ⟨[], p.steps, p.environment_note⟩ := by
  simp only [normalizedPlan, Bool.and_eq_true, beq_iff_eq, Bool.not_eq_true',
    List.isEmpty_eq_false] at h
  obtain ⟨⟨⟨hall, hne⟩, hstrip⟩, htag⟩ := h
  have hsum : extractedSummary
      [(kSummary, .str p.summary), (kSteps, .arr (p.steps.map PlanStep.toDict)),
       (kEnvironmentKey, .str p.environment_note)] = [] := rfl
  have henv : extractedEnvironment
      [(kSummary, .str p.summary), (kSteps, .arr (p.steps.map PlanStep.toDict)),
       (kEnvironmentKey, .str p.environment_note)] = p.environment_note := by
    show normalizeEnvironmentText (jLookup _ kEnvironmentKey) = _
    have hj : jLookup
        [(kSummary, JVal.str p.summary), (kSteps, JVal.arr (p.steps.map PlanStep.toDict)),
         (kEnvironmentKey, JVal.str p.environment_note)] kEnvironmentKey
        = some (.str p.environment_note) := rfl
    rw [hj]
    unfold normalizeEnvironmentText
    simp [hstrip, hne, htag]
  have hsteps : extractedSteps
      [(kSummary, .str p.summary), (kSteps, .arr (p.steps.map PlanStep.toDict)),
       (kEnvironmentKey, .str p.environment_note)] = p.steps := by
    unfold extractedSteps
    have hj : jLookup
        [(kSummary, JVal.str p.summary), (kSteps, JVal.arr (p.steps.map PlanStep.toDict)),
         (kEnvironmentKey, JVal.str p.environment_note)] kSteps
        = some (.arr (p.steps.map PlanStep.toDict)) := rfl
    rw [hj]
    show parseStepEntries (p.steps.map PlanStep.toDict) = p.steps
    exact parseStepEntries_toDict p.steps hall
  rw [Plan.toDict, parsePlanPayload_obj, hsum, henv, hsteps]
  simp [hne]

/-- C1, counterexample: a plan actually produced by the normalizer (for
the description `Install git` on the heuristic path) does not survive the
round trip: `Plan.to_dict` writes the summary under the key `summary`,
while the strict-JSON parser only reads `task_summary`, so the re-parsed
plan has an empty summary. -/
theorem plan_roundtrip_counterexample :
    (generatePlan false (("Install git").data) none none none (Except.ok []) (fun _ => none)
      = .ok (⟨("Install git").data, [⟨("Install git").data, none, none⟩],
             environmentMessage false⟩, false))
    ∧ parsePlanPayload (Plan.toDict ⟨("Install git").data,
        [⟨("Install git").data, none, none⟩], environmentMessage false⟩)
      ≠ some ⟨("Install git").data, [⟨("Install git").data, none, none⟩],
              environmentMessage false⟩ :=
  ⟨rfl, by decide⟩

/-- Witness for the amended C1 at a concrete normalizer-shaped plan. -/
theorem plan_roundtrip_amended_witness :
    normalizedPlan ⟨("Install deps").data,
      [⟨("Install git").data, some (("pkg install -y git").data), none⟩],
      ("Environment: Termux detected").data⟩ = true
    ∧ parsePlanPayload (Plan.toDict ⟨("Install deps").data,
        [⟨("Install git").data, some (("pkg install -y git").data), none⟩],
        ("Environment: Termux detected").data⟩)
      = some ⟨[], [⟨("Install git").data, some (("pkg install -y git").data), none⟩],
              ("Environment: Termux detected").data⟩ :=
  ⟨by decide, plan_roundtrip_amended _ (by decide)⟩

/-- C9, amended: the Ollama content extraction is a total function (the
embedding models every fallible sub-operation, so totality is
never-raising); it returns the message content for each of the three
tolerated shapes (mapping-of-mapping, attribute-bearing, subscriptable,
probed in that order — when several match they agree), returns a plain
string reply verbatim, and returns empty text for every other value
matching none of the shapes. -/
theorem extract_content_amended (r : PyVal) :
    (∀ c, MappingShape r c → extractContent r = c)
    ∧ (∀ c, AttrShape r c → extractContent r = c)
    ∧ (∀ c, ItemShape r c → extractContent r = c)
    ∧ (∀ s, r = .str s → extractContent r = s)
    ∧ ((¬ ∃ c, MappingShape r c) → (¬ ∃ c, AttrShape r c) → (¬ ∃ c, ItemShape r c) →
        (∀ s, r ≠ .str s) → extractContent r = []) := by
  refine ⟨?_, ?_, ?_, ?_, ?_⟩
  · rintro c ⟨entries, m, rfl, h1, h2⟩
    simp [extractContent, h1, h2]
  · rintro c ⟨message, h1, hne, h2⟩
    cases r <;> simp [pyGetAttr] at h1
    case objAttrs attrs =>
      cases message <;> simp [pyGetAttr] at h2
      case objAttrs a2 =>
        simp [extractContent, pyGetAttr, h1, h2]
  · rintro c ⟨hh, message, h1, h2⟩
    cases r <;> simp [pyHasGetItem] at hh <;> simp [pyGetItem] at h1
    case dict entries =>
      cases message <;> simp [pyGetItem] at h2
      case dict m => simp [extractContent, pyGetAttr, pyGetItem, pyHasGetItem, h1, h2]
      case objItems items => simp [extractContent, pyGetAttr, pyGetItem, pyHasGetItem, h1, h2]
    case objItems items =>
      cases message <;> simp [pyGetItem] at h2
      case dict m => simp [extractContent, pyGetAttr, pyGetItem, pyHasGetItem, h1, h2]
      case objItems i2 => simp [extractContent, pyGetAttr, pyGetItem, pyHasGetItem, h1, h2]
  · rintro s rfl
    rfl
  · intro hm ha hi hs
    cases r
    case pynone => rfl
    case otherVal => rfl
    case str s => exact absurd rfl (hs s)
    case dict entries =>
      rcases h1 : pvLookup entries kMessage with _ | v
      · simp [extractContent, pyGetAttr, pyGetItem, pyHasGetItem, h1]
      · cases v
        case pynone => simp [extractContent, pyGetAttr, pyGetItem, pyHasGetItem, h1]
        case str s2 => simp [extractContent, pyGetAttr, pyGetItem, pyHasGetItem, h1]
        case otherVal => simp [extractContent, pyGetAttr, pyGetItem, pyHasGetItem, h1]
        case objAttrs a2 => simp [extractContent, pyGetAttr, pyGetItem, pyHasGetItem, h1]
        case dict m =>
          rcases h2 : pvLookup m kContent with _ | w
          · simp [extractContent, pyGetAttr, pyGetItem, pyHasGetItem, h1, h2]
          · cases w
            case str c0 => exact absurd ⟨c0, entries, m, rfl, h1, h2⟩ hm
            all_goals simp [extractContent, pyGetAttr, pyGetItem, pyHasGetItem, h1, h2]
        case objItems items =>
          rcases h2 : pvLookup items kContent with _ | w
          · simp [extractContent, pyGetAttr, pyGetItem, pyHasGetItem, h1, h2]
          · cases w
            case str c0 =>
              exact absurd ⟨c0, by simp [pyHasGetItem], .objItems items,
                by simp [pyGetItem, h1], by simp [pyGetItem, h2]⟩ hi
            all_goals simp [extractContent, pyGetAttr, pyGetItem, pyHasGetItem, h1, h2]
    case objAttrs attrs =>
      rcases h1 : pvLookup attrs kMessage with _ | v
      · simp [extractContent, pyGetAttr, pyGetItem, pyHasGetItem, h1]
      · cases v
        case pynone => simp [extractContent, pyGetAttr, pyGetItem, pyHasGetItem, h1]
        case str s2 => simp [extractContent, pyGetAttr, pyGetItem, pyHasGetItem, h1]
        case otherVal => simp [extractContent, pyGetAttr, pyGetItem, pyHasGetItem, h1]
        case dict m => simp [extractContent, pyGetAttr, pyGetItem, pyHasGetItem, h1]
        case objItems items => simp [extractContent, pyGetAttr, pyGetItem, pyHasGetItem, h1]
        case objAttrs a2 =>
          rcases h2 : pvLookup a2 kContent with _ | w
          · simp [extractContent, pyGetAttr, pyGetItem, pyHasGetItem, h1, h2]
          · cases w
            case str c0 =>
              exact absurd ⟨c0, .objAttrs a2, by simp [pyGetAttr, h1], by simp,
                by simp [pyGetAttr, h2]⟩ ha
            all_goals simp [extractContent, pyGetAttr, pyGetItem, pyHasGetItem, h1, h2]
    case objItems items =>
      rcases h1 : pvLookup items kMessage with _ | v
      · simp [extractContent, pyGetAttr, pyGetItem, pyHasGetItem, h1]
      · cases v
        case pynone => simp [extractContent, pyGetAttr, pyGetItem, pyHasGetItem, h1]
        case str s2 => simp [extractContent, pyGetAttr, pyGetItem, pyHasGetItem, h1]
        case otherVal => simp [extractContent, pyGetAttr, pyGetItem, pyHasGetItem, h1]
        case objAttrs a2 => simp [extractContent, pyGetAttr, pyGetItem, pyHasGetItem, h1]
        case dict m =>
          rcases h2 : pvLookup m kContent with _ | w
          · simp [extractContent, pyGetAttr, pyGetItem, pyHasGetItem, h1, h2]
          · cases w
            case str c0 =>
              exact absurd ⟨c0, by simp [pyHasGetItem], .dict m,
                by simp [pyGetItem, h1], by simp [pyGetItem, h2]⟩ hi
            all_goals simp [extractContent, pyGetAttr, pyGetItem, pyHasGetItem, h1, h2]
        case objItems i2 =>
          rcases h2 : pvLookup i2 kContent with _ | w
          · simp [extractContent, pyGetAttr, pyGetItem, pyHasGetItem, h1, h2]
          · cases w
            case str c0 =>
              exact absurd ⟨c0, by simp [pyHasGetItem], .objItems i2,
                by simp [pyGetItem, h1], by simp [pyGetItem, h2]⟩ hi
            all_goals simp [extractContent, pyGetAttr, pyGetItem, pyHasGetItem, h1, h2]

/-- C9, counterexample: a plain string reply matches none of the three
tolerated shapes, yet `_extract_content` returns it verbatim instead of
the empty text the claim requires for such values. -/
theorem extract_content_counterexample :
    extractContent (PyVal.str (("hello").data)) = ("hello").data
    ∧ ("hello").data ≠ ([] : Str)
    ∧ (¬ ∃ c, MappingShape (PyVal.str (("hello").data)) c)
    ∧ (¬ ∃ c, AttrShape (PyVal.str (("hello").data)) c)
    ∧ (¬ ∃ c, ItemShape (PyVal.str (("hello").data)) c) := by
  refine ⟨rfl, by decide, ?_, ?_, ?_⟩
  · rintro ⟨c, entries, m, h, -, -⟩
    exact PyVal.noConfusion h
  · rintro ⟨c, message, h1, -, -⟩
    simp [pyGetAttr] at h1
  · rintro ⟨c, hh, message, h1, h2⟩
    simp [pyGetItem] at h1

/-- Witness for the amended C9: a mapping-of-mapping reply. -/
theorem extract_content_amended_witness :
    MappingShape (PyVal.dict [(kMessage, PyVal.dict [(kContent, PyVal.str (("ok").data))])])
      (("ok").data)
    ∧ extractContent (PyVal.dict [(kMessage, PyVal.dict [(kContent, PyVal.str (("ok").data))])])
      = ("ok").data :=
  ⟨⟨[(kMessage, PyVal.dict [(kContent, PyVal.str (("ok").data))])],
    [(kContent, PyVal.str (("ok").data))], rfl, rfl, rfl⟩,
   (extract_content_amended _).1 _
     ⟨[(kMessage, PyVal.dict [(kContent, PyVal.str (("ok").data))])],
      [(kContent, PyVal.str (("ok").data))], rfl, rfl, rfl⟩⟩
